import Mathlib

/-!
Verification of the PerseusSDK command/status layer
(`perseuslib/controller/robot_command.hpp` and the `Controller::GenerateCommandId`
helper of `perseuslib/controller/controller.h`).

Modelling conventions:
* C++ `double` timeout fields are modelled as `ℚ`.  None of the verified code
  performs floating-point arithmetic on them: they are only stored, copied and
  compared, which `ℚ` models exactly.
* `std::array<double, n>` payload fields are modelled as `Fin n → ℚ`.
* `uint32_t` is modelled as `Nat` with explicit `% 2 ^ 32` where overflow can
  occur (the `GenerateCommandId` counter); `ToResponseStatus` only compares its
  argument, so its `Nat` argument needs no reduction.
* Throwing factory/accessor functions return `Except WissonException _`.
* The `std::atomic` fields `current_index` and `finished` are modelled as plain
  fields: every claim below is about the sequential semantics of the operations.
-/

/-- `JOINT_NUM` from `perseuslib/common/robot_state.h`. -/
def JOINT_NUM : Nat := 9

/-- `wisson_SDK::control::cmd_list_size`: maximum number of commands in a list. -/
def cmd_list_size : Nat := 20

/-- Exceptions thrown by the modelled code (`perseuslib/common/wisson_exception.h`). -/
inductive WissonException where
  | ConstructorException (msg : String)
  | ControlException (msg : String)
deriving DecidableEq

/-- `wisson_SDK::control::MotionCommand` with its member initialisers. -/
structure MotionCommand where
  joint_positions : Fin JOINT_NUM → ℚ := fun _ => 0
  joint_velocities : Fin JOINT_NUM → ℚ := fun _ => 0
  ee_transform : Fin 16 → ℚ := fun _ => 0
  ee_velocity : Fin 6 → ℚ := fun _ => 0
  elbow : Fin 2 → ℚ := fun _ => 0
  has_elbow : Bool := false
  timeout : ℚ := 10

/-- `MotionCommand::CreateCommand(joint_positions, timeout_s)`: starts from a
default-constructed `MotionCommand` and overwrites `joint_positions` and
`timeout`.  The C++ default argument is `timeout_s = 30.0`.  No validation of
`timeout_s` is performed by the source. -/
def MotionCommand.CreateCommand (jp : Fin JOINT_NUM → ℚ) (timeout_s : ℚ) :
    MotionCommand :=
  { joint_positions := jp, timeout := timeout_s }

/-- `wisson_SDK::control::TorqueCommand` (plain aggregate, no factory). -/
structure TorqueCommand where
  desired_torque : Fin JOINT_NUM → ℚ := fun _ => 0
  timeout : ℚ := 10

/-- `wisson_SDK::control::EndEffectorAction` (uint32 enum, values 0..3). -/
inductive EndEffectorAction where
  | Idle
  | Open
  | Close
  | ForceClose
deriving DecidableEq, Fintype

/-- `wisson_SDK::control::EndEffectorCommand` (plain aggregate, no factory). -/
structure EndEffectorCommand where
  ee_action : EndEffectorAction := .Idle
  timeout : ℚ := 10

/-- `wisson_SDK::control::ResponseStatus` (uint32 enum, values 0..10). -/
inductive ResponseStatus where
  | kIdle
  | kSending
  | kWaiting
  | kSubSuccess
  | kSuccess
  | kFail
  | kUserStop
  | kTimeout
  | kAbort
  | kRefused
  | kUnknown
deriving DecidableEq, Fintype

/-- The numeric value of each `ResponseStatus` enumerator (declaration order,
starting at 0, exactly as the C++ enum assigns them). -/
def responseStatusVal : ResponseStatus → Nat
  | .kIdle => 0
  | .kSending => 1
  | .kWaiting => 2
  | .kSubSuccess => 3
  | .kSuccess => 4
  | .kFail => 5
  | .kUserStop => 6
  | .kTimeout => 7
  | .kAbort => 8
  | .kRefused => 9
  | .kUnknown => 10

/-- The `static_cast<ResponseStatus>` of an in-range numeric value: the
enumerator whose value is `n` (out-of-range values are mapped to `kUnknown`;
`ToResponseStatus` only applies the cast inside `[2, 9]`). -/
def responseStatusOfNat : Nat → ResponseStatus
  | 0 => .kIdle
  | 1 => .kSending
  | 2 => .kWaiting
  | 3 => .kSubSuccess
  | 4 => .kSuccess
  | 5 => .kFail
  | 6 => .kUserStop
  | 7 => .kTimeout
  | 8 => .kAbort
  | 9 => .kRefused
  | _ => .kUnknown

/-- `wisson_SDK::control::detail::ToResponseStatus(uint32_t result)`:
returns `static_cast<ResponseStatus>(result)` when
`kWaiting <= result <= kRefused` (i.e. `2 <= result <= 9`), else `kUnknown`. -/
def ToResponseStatus (result : Nat) : ResponseStatus :=
  if responseStatusVal .kWaiting ≤ result ∧ result ≤ responseStatusVal .kRefused then
    responseStatusOfNat result
  else
    .kUnknown

/-- `wisson_SDK::control::detail::IsActionFinished(ResponseStatus)`. -/
def IsActionFinished : ResponseStatus → Bool
  | .kSuccess => true
  | .kUserStop => true
  | .kTimeout => true
  | .kAbort => true
  | .kFail => true
  | .kRefused => true
  | _ => false

/-- `wisson_SDK::control::detail::EndEffectorActionToString`.  The C++
`default: return "Unknown"` branch is unreachable for the four declared
enumerators, which are the only inhabitants of the Lean type. -/
def EndEffectorActionToString : EndEffectorAction → String
  | .Idle => "Idle"
  | .Open => "Open"
  | .Close => "Close"
  | .ForceClose => "ForceClose"

/-- `wisson_SDK::control::detail::StringToEndEffectorActionSafe(std::string_view)`:
unrecognised strings fall back to `Idle`. -/
def StringToEndEffectorActionSafe (str : String) : EndEffectorAction :=
  if str = "Idle" then .Idle
  else if str = "Open" then .Open
  else if str = "Close" then .Close
  else if str = "ForceClose" then .ForceClose
  else .Idle

/-- The `const char*` overload of `StringToEndEffectorActionSafe`: a null
pointer (modelled as `none`) returns `Idle`, otherwise it delegates to the
`string_view` overload. -/
def StringToEndEffectorActionSafeCStr : Option String → EndEffectorAction
  | none => .Idle
  | some s => StringToEndEffectorActionSafe s

/-- `wisson_SDK::control::SDKCmdVariant =
std::variant<MotionCommand, TorqueCommand, EndEffectorCommand>`. -/
inductive SDKCmdVariant where
  | motion (m : MotionCommand)
  | torque (t : TorqueCommand)
  | endEffector (e : EndEffectorCommand)

/-- The `c.timeout` member access performed generically by the C++ templates
(`RobotCommand::CreateCommand`, `getTimeoutVec`). -/
def SDKCmdVariant.timeout : SDKCmdVariant → ℚ
  | .motion m => m.timeout
  | .torque t => t.timeout
  | .endEffector e => e.timeout

/-- `wisson_SDK::control::RobotCommand`: the command sequence.  The shared
pointer wrapper is elided; the factories below return the pointee. -/
structure RobotCommand where
  cmd_id : Nat
  cmd_size : Nat
  commands : List SDKCmdVariant
  total_timeout : ℚ
  current_index : Nat
  finished : Bool
  status : ResponseStatus

/-- `RobotCommand::CreateCommands(sequence, total_timeout_s)`: throws a
`ConstructorException` when the input is empty or longer than
`cmd_list_size`; otherwise constructs a `RobotCommand` (default members
`cmd_id = 0`, `current_index = 0`, `finished = false`, `status = kIdle`) and
copies the inputs in order.  The C++ template takes a homogeneous
`std::vector<CommandType>` and wraps each element into the variant; the model
takes the already-wrapped list. -/
def RobotCommand.CreateCommands (sequence : List SDKCmdVariant)
    (total_timeout_s : ℚ) : Except WissonException RobotCommand :=
  if sequence.length = 0 ∨ sequence.length > cmd_list_size then
    .error (.ConstructorException
      "libperseus-RobotCommand: Input command vectors are incorrect.")
  else
    .ok { cmd_id := 0, cmd_size := sequence.length, commands := sequence,
          total_timeout := total_timeout_s, current_index := 0,
          finished := false, status := .kIdle }

/-- `RobotCommand::CreateCommand(c)`: single-command sequence; no validation,
`total_timeout` is taken from the command's own `timeout`. -/
def RobotCommand.CreateCommand (c : SDKCmdVariant) : RobotCommand :=
  { cmd_id := 0, cmd_size := 1, commands := [c], total_timeout := c.timeout,
    current_index := 0, finished := false, status := .kIdle }

/-- `RobotCommand::HasNext()`: `current_index < commands.size()`. -/
def RobotCommand.HasNext (c : RobotCommand) : Bool :=
  decide (c.current_index < c.commands.length)

/-- `RobotCommand::Current()`: returns `commands[current_index]`, throwing a
`ControlException` when the index is out of range.  The C++ method is `const`:
it never mutates the sequence, so the model returns only the result. -/
def RobotCommand.Current (c : RobotCommand) :
    Except WissonException SDKCmdVariant :=
  if h : c.current_index < c.commands.length then
    .ok (c.commands.get ⟨c.current_index, h⟩)
  else
    .error (.ControlException
      "libperseus-RobotCommand: current_index out of range")

/-- `RobotCommand::Advance()`: increments `current_index` when it is below the
length, otherwise leaves the sequence unchanged. -/
def RobotCommand.Advance (c : RobotCommand) : RobotCommand :=
  if c.current_index < c.commands.length then
    { c with current_index := c.current_index + 1 }
  else
    c

/-- The states a `RobotCommand` can reach from construction through the
repository's own operations: `Advance` is the only operation that writes the
cursor; the `Controller` additionally writes the `cmd_id`, `status` and
`finished` fields, which leave cursor and step list untouched. -/
inductive RobotCommand.Reachable : RobotCommand → Prop where
  | ofCreateCommands (seq : List SDKCmdVariant) (t : ℚ) (c : RobotCommand) :
      RobotCommand.CreateCommands seq t = .ok c → RobotCommand.Reachable c
  | ofCreateCommand (v : SDKCmdVariant) :
      RobotCommand.Reachable (RobotCommand.CreateCommand v)
  | advance (c : RobotCommand) :
      RobotCommand.Reachable c → RobotCommand.Reachable c.Advance
  | setCmdId (c : RobotCommand) (i : Nat) :
      RobotCommand.Reachable c → RobotCommand.Reachable { c with cmd_id := i }
  | setStatus (c : RobotCommand) (s : ResponseStatus) :
      RobotCommand.Reachable c → RobotCommand.Reachable { c with status := s }
  | setFinished (c : RobotCommand) (b : Bool) :
      RobotCommand.Reachable c → RobotCommand.Reachable { c with finished := b }

/-- The state of the `Controller::GenerateCommandId()` counter after `k` calls,
starting from the static initialiser `commandId{0}`.  Each call pre-increments
the `uint32_t` counter and returns the new value, so the value returned by the
k-th call is `commandIdAfter k`. -/
def commandIdAfter : Nat → Nat
  | 0 => 0
  | k + 1 => (commandIdAfter k + 1) % 2 ^ 32

theorem commandIdAfter_eq (k : Nat) : commandIdAfter k = k % 2 ^ 32 := by
  induction k with
  | zero => rfl
  | succ n ih =>
    show (commandIdAfter n + 1) % 2 ^ 32 = (n + 1) % 2 ^ 32
    rw [ih]
    omega

theorem responseStatusVal_injective (s t : ResponseStatus)
    (h : responseStatusVal s = responseStatusVal t) : s = t := by
  revert h
  cases s <;> cases t <;> decide

theorem reachable_cursor_le (c : RobotCommand) (h : RobotCommand.Reachable c) :
    c.current_index ≤ c.commands.length := by
  induction h with
  | ofCreateCommands seq t c hok =>
    unfold RobotCommand.CreateCommands at hok
    by_cases hguard : seq.length = 0 ∨ seq.length > cmd_list_size
    · rw [if_pos hguard] at hok
      exact Except.noConfusion hok
    · rw [if_neg hguard] at hok
      cases hok
      simp
  | ofCreateCommand v => simp [RobotCommand.CreateCommand]
  | advance c _ ih =>
    unfold RobotCommand.Advance
    by_cases hlt : c.current_index < c.commands.length
    · simp [hlt]
      omega
    · simp [hlt]
      exact ih
  | setCmdId c i _ ih => exact ih
  | setStatus c s _ ih => exact ih
  | setFinished c b _ ih => exact ih

/-- Claim C1: `IsActionFinished` returns `true` exactly on the six terminal
statuses (success, user-stop, timeout, abort, fail, refused); the remaining
five statuses (idle, sending, waiting, sub-success, unknown) are not
terminal. -/
theorem is_action_finished_iff_terminal :
    ∀ s : ResponseStatus,
      (IsActionFinished s = true ↔
        (s = .kSuccess ∨ s = .kUserStop ∨ s = .kTimeout ∨ s = .kAbort ∨
          s = .kFail ∨ s = .kRefused)) ∧
      IsActionFinished .kSubSuccess = false ∧
      IsActionFinished .kIdle = false ∧
      IsActionFinished .kSending = false ∧
      IsActionFinished .kWaiting = false ∧
      IsActionFinished .kUnknown = false := by
  decide

/-- Claim C2: for a 32-bit raw status code `r`, `ToResponseStatus r` is the
enumerator with numeric value `r` when `r` lies in `[kWaiting, kRefused]`
(that is, `2 ≤ r ≤ 9`), and `kUnknown` otherwise. -/
theorem to_response_status_spec :
    ∀ r : Nat, r < 2 ^ 32 →
      ((2 ≤ r ∧ r ≤ 9) → responseStatusVal (ToResponseStatus r) = r) ∧
      ((2 ≤ r ∧ r ≤ 9) → ∀ s : ResponseStatus, responseStatusVal s = r →
        ToResponseStatus r = s) ∧
      (¬(2 ≤ r ∧ r ≤ 9) → ToResponseStatus r = .kUnknown) := by
  intro r _
  have key : (2 ≤ r ∧ r ≤ 9) → responseStatusVal (ToResponseStatus r) = r := by
    rintro ⟨h2, h9⟩
    interval_cases r <;> decide
  refine ⟨key, ?_, ?_⟩
  · intro h s hs
    exact responseStatusVal_injective _ _ (by rw [key h, hs])
  · intro h
    have hcond : ¬(responseStatusVal .kWaiting ≤ r ∧
        r ≤ responseStatusVal .kRefused) := by
      simpa [responseStatusVal] using h
    unfold ToResponseStatus
    rw [if_neg hcond]

/-- Witness for C2 at the in-range code 5 (decoding to `kFail`) and the
out-of-range code 255 (decoding to `kUnknown`). -/
theorem to_response_status_spec_witness :
    responseStatusVal (ToResponseStatus 5) = 5 ∧
    ToResponseStatus 5 = .kFail ∧
    ToResponseStatus 255 = .kUnknown :=
  ⟨(to_response_status_spec 5 (by norm_num)).1 (by norm_num),
   (to_response_status_spec 5 (by norm_num)).2.1 (by norm_num) .kFail rfl,
   (to_response_status_spec 255 (by norm_num)).2.2 (by norm_num)⟩

/-- Claim C3: `CreateCommands` with `1 ≤ N ≤ 20` input variants succeeds with
an ordered copy of the input, `cmd_size = N`, the given total timeout, cursor
0, `finished = false` and status idle; with `N = 0` or `N > 20` it fails with
a `ConstructorException`. -/
theorem create_commands_spec :
    ∀ (seq : List SDKCmdVariant) (t : ℚ),
      (1 ≤ seq.length → seq.length ≤ cmd_list_size →
        ∃ c, RobotCommand.CreateCommands seq t = .ok c ∧
          c.commands = seq ∧ c.cmd_size = seq.length ∧ c.total_timeout = t ∧
          c.current_index = 0 ∧ c.finished = false ∧ c.status = .kIdle ∧
          c.cmd_id = 0) ∧
      (seq.length = 0 ∨ seq.length > cmd_list_size →
        RobotCommand.CreateCommands seq t = .error (.ConstructorException
          "libperseus-RobotCommand: Input command vectors are incorrect.")) := by
  intro seq t
  constructor
  · intro h1 h2
    have hguard : ¬(seq.length = 0 ∨ seq.length > cmd_list_size) := by omega
    refine ⟨{ cmd_id := 0, cmd_size := seq.length, commands := seq,
              total_timeout := t, current_index := 0, finished := false,
              status := .kIdle }, ?_, rfl, rfl, rfl, rfl, rfl, rfl, rfl⟩
    unfold RobotCommand.CreateCommands
    rw [if_neg hguard]
  · intro h
    unfold RobotCommand.CreateCommands
    rw [if_pos h]

/-- A concrete end-effector command variant (all fields defaulted). -/
def v0 : SDKCmdVariant := .endEffector {}

/-- The single-command sequence built from `v0`; cursor 0, length 1. -/
def c0 : RobotCommand := RobotCommand.CreateCommand v0

/-- `c0` after one `Advance`: cursor 1 = length. -/
def c1 : RobotCommand := c0.Advance

/-- Witness for C3: a one-element input succeeds with the stated fields, the
empty input fails with a `ConstructorException`. -/
theorem create_commands_spec_witness :
    (∃ c, RobotCommand.CreateCommands [v0] 5 = .ok c ∧
      c.commands = [v0] ∧ c.cmd_size = 1 ∧ c.total_timeout = 5 ∧
      c.current_index = 0 ∧ c.finished = false ∧ c.status = .kIdle ∧
      c.cmd_id = 0) ∧
    RobotCommand.CreateCommands [] 5 = .error (.ConstructorException
      "libperseus-RobotCommand: Input command vectors are incorrect.") :=
  ⟨(create_commands_spec [v0] 5).1 (by decide) (by decide),
   (create_commands_spec [] 5).2 (by decide)⟩

/-- Claim C4: `HasNext` is true exactly when the cursor is below the length;
`Advance` increments the cursor by one below the length and is a no-op at the
length; `Advance` never changes the step list; the cursor never decreases;
and every state reachable from construction through the repository's
operations keeps the cursor at most the length. -/
theorem advance_cursor_invariant :
    ∀ c : RobotCommand,
      (c.HasNext = true ↔ c.current_index < c.commands.length) ∧
      (c.current_index < c.commands.length →
        c.Advance.current_index = c.current_index + 1) ∧
      (c.current_index = c.commands.length → c.Advance = c) ∧
      c.current_index ≤ c.Advance.current_index ∧
      c.Advance.commands = c.commands ∧
      (RobotCommand.Reachable c → c.current_index ≤ c.commands.length) := by
  intro c
  refine ⟨?_, ?_, ?_, ?_, ?_, reachable_cursor_le c⟩
  · simp [RobotCommand.HasNext]
  · intro h
    simp [RobotCommand.Advance, h]
  · intro h
    simp [RobotCommand.Advance, h]
  · unfold RobotCommand.Advance
    split
    · exact Nat.le_succ _
    · exact le_refl _
  · unfold RobotCommand.Advance
    split <;> rfl

/-- Witness for C4: on the one-step sequence `c0`, `HasNext` holds and
`Advance` moves the cursor from 0 to 1; at the end (`c1`) `Advance` is a
no-op; `c1` is reachable and satisfies the cursor bound. -/
theorem advance_cursor_invariant_witness :
    c0.HasNext = true ∧
    c0.Advance.current_index = c0.current_index + 1 ∧
    c1.Advance = c1 ∧
    c1.current_index ≤ c1.commands.length :=
  ⟨(advance_cursor_invariant c0).1.mpr (by decide),
   (advance_cursor_invariant c0).2.1 (by decide),
   (advance_cursor_invariant c1).2.2.1 (by decide),
   (advance_cursor_invariant c1).2.2.2.2.2
     (RobotCommand.Reachable.advance c0 (RobotCommand.Reachable.ofCreateCommand v0))⟩

/-- Claim C5 counterexample: the `GenerateCommandId` counter is a `uint32_t`
incremented modulo `2 ^ 32`, so the value returned by call `2 ^ 32 + 1`
equals the value returned by call 1: values ARE reused once the counter
wraps, refuting "no value is ever reused for the process's lifetime". -/
theorem generate_command_id_reuse_cex :
    commandIdAfter (2 ^ 32 + 1) = commandIdAfter 1 ∧ (2 ^ 32 + 1 : Nat) ≠ 1 := by
  rw [commandIdAfter_eq, commandIdAfter_eq]
  norm_num

/-- Claim C5 (amended): before the 32-bit counter wraps — that is, over any
`K < 2 ^ 32` calls — `GenerateCommandId` returns pairwise distinct, strictly
increasing values (call `i` returns a smaller value than any later call `j`);
after `2 ^ 32` calls the counter wraps and values repeat. -/
theorem generate_command_id_strict_mono :
    ∀ i j : Nat, i < j → j < 2 ^ 32 → commandIdAfter i < commandIdAfter j := by
  intro i j hij hj
  rw [commandIdAfter_eq, commandIdAfter_eq,
    Nat.mod_eq_of_lt (lt_trans hij hj), Nat.mod_eq_of_lt hj]
  exact hij

/-- Witness for C5 (amended): the first call returns a smaller id than the
second. -/
theorem generate_command_id_strict_mono_witness :
    commandIdAfter 1 < commandIdAfter 2 :=
  generate_command_id_strict_mono 1 2 (by norm_num) (by norm_num)

/-- Claim C6 counterexample: `MotionCommand::CreateCommand` stores the
caller-supplied timeout without validation, so `timeout_s = -1` yields a
command whose stored timeout is not strictly greater than 0. -/
theorem motion_command_timeout_unvalidated_cex :
    (MotionCommand.CreateCommand (fun _ => 0) (-1)).timeout = -1 ∧
    ¬(0 < (MotionCommand.CreateCommand (fun _ => 0) (-1)).timeout) := by
  constructor
  · rfl
  · norm_num [MotionCommand.CreateCommand]

/-- Claim C6 (amended): the factory stores the caller-supplied timeout
unchanged (its stored timeout is positive exactly when the argument is;
the C++ default argument 30 and the member defaults 10 of all three variant
types are positive), but no positivity validation is performed, and
`TorqueCommand` / `EndEffectorCommand` are plain aggregates without a
factory. -/
theorem command_timeout_stored_unvalidated :
    ∀ (jp : Fin JOINT_NUM → ℚ) (t : ℚ),
      (MotionCommand.CreateCommand jp t).timeout = t ∧
      (MotionCommand.CreateCommand jp t).joint_positions = jp ∧
      (0 < (MotionCommand.CreateCommand jp t).timeout ↔ 0 < t) ∧
      (MotionCommand.CreateCommand jp 30).timeout = 30 ∧
      (0 : ℚ) < (MotionCommand.CreateCommand jp 30).timeout ∧
      ({} : MotionCommand).timeout = 10 ∧
      ({} : TorqueCommand).timeout = 10 ∧
      ({} : EndEffectorCommand).timeout = 10 := by
  intro jp t
  exact ⟨rfl, rfl, Iff.rfl, rfl, by norm_num [MotionCommand.CreateCommand],
    rfl, rfl, rfl⟩

/-- Claim C7: `Current` returns the step at the cursor when the cursor is
below the length, and fails with the `ControlException` exactly when the
cursor is at or past the length.  The C++ method is `const`, so the failed
call leaves the sequence unchanged (the model is a pure function of the
sequence). -/
theorem current_spec :
    ∀ c : RobotCommand,
      (∀ h : c.current_index < c.commands.length,
        c.Current = .ok (c.commands.get ⟨c.current_index, h⟩)) ∧
      ((∃ e, c.Current = .error e) ↔ c.commands.length ≤ c.current_index) ∧
      (c.commands.length ≤ c.current_index →
        c.Current = .error (.ControlException
          "libperseus-RobotCommand: current_index out of range")) := by
  intro c
  by_cases h : c.current_index < c.commands.length
  · refine ⟨?_, ?_, ?_⟩
    · intro h2
      simp [RobotCommand.Current, h]
    · constructor
      · rintro ⟨e, he⟩
        simp [RobotCommand.Current, h] at he
      · intro hle
        omega
    · intro hle
      omega
  · refine ⟨fun h2 => absurd h2 h, ?_, ?_⟩
    · constructor
      · intro _
        omega
      · intro _
        exact ⟨.ControlException
          "libperseus-RobotCommand: current_index out of range",
          by simp [RobotCommand.Current, h]⟩
    · intro _
      simp [RobotCommand.Current, h]

/-- Witness for C7: on `c0` (cursor 0, length 1) `Current` returns the step;
on `c1` (cursor 1 = length) it fails with the `ControlException`. -/
theorem current_spec_witness :
    c0.Current = .ok v0 ∧
    c1.Current = .error (.ControlException
      "libperseus-RobotCommand: current_index out of range") :=
  ⟨(current_spec c0).1 (by decide), (current_spec c1).2.2 (by decide)⟩

/-- Claim C8: `RobotCommand::CreateCommand(c)` builds a sequence of exactly
one step holding `c`, whose `total_timeout` equals the command's own timeout
(and whose cursor, completion flag and status take the fresh values). -/
theorem create_single_spec :
    ∀ v : SDKCmdVariant,
      (RobotCommand.CreateCommand v).commands = [v] ∧
      (RobotCommand.CreateCommand v).cmd_size = 1 ∧
      (RobotCommand.CreateCommand v).total_timeout = v.timeout ∧
      (RobotCommand.CreateCommand v).current_index = 0 ∧
      (RobotCommand.CreateCommand v).finished = false ∧
      (RobotCommand.CreateCommand v).status = .kIdle := by
  intro v
  exact ⟨rfl, rfl, rfl, rfl, rfl, rfl⟩

/-- Claim C9: `GenerateCommandId` pre-increments, so call `k` returns
`k ≠ 0` for every `1 ≤ k < 2 ^ 32` (in particular the first call returns 1),
while both factories construct sequences with `cmd_id = 0`; hence
`cmd_id = 0` distinguishes a never-dispatched sequence before the counter
wraps. -/
theorem cmd_id_zero_distinguishes :
    ∀ (k : Nat) (seq : List SDKCmdVariant) (t : ℚ) (c : RobotCommand)
      (v : SDKCmdVariant),
      (1 ≤ k → k < 2 ^ 32 → commandIdAfter k = k ∧ commandIdAfter k ≠ 0) ∧
      commandIdAfter 1 = 1 ∧
      (RobotCommand.CreateCommands seq t = .ok c → c.cmd_id = 0) ∧
      (RobotCommand.CreateCommand v).cmd_id = 0 := by
  intro k seq t c v
  refine ⟨?_, by decide, ?_, rfl⟩
  · intro h1 hk
    rw [commandIdAfter_eq, Nat.mod_eq_of_lt hk]
    exact ⟨rfl, by omega⟩
  · intro hok
    unfold RobotCommand.CreateCommands at hok
    by_cases hguard : seq.length = 0 ∨ seq.length > cmd_list_size
    · rw [if_pos hguard] at hok
      exact Except.noConfusion hok
    · rw [if_neg hguard] at hok
      cases hok
      rfl

/-- Witness for C9: call 3 returns 3 ≠ 0, and the concrete sequence `c0`
(also obtainable from `CreateCommands [v0] 10`) carries `cmd_id = 0`. -/
theorem cmd_id_zero_distinguishes_witness :
    (commandIdAfter 3 = 3 ∧ commandIdAfter 3 ≠ 0) ∧
    commandIdAfter 1 = 1 ∧
    c0.cmd_id = 0 :=
  ⟨(cmd_id_zero_distinguishes 3 [v0] 10 c0 v0).1 (by norm_num) (by norm_num),
   (cmd_id_zero_distinguishes 3 [v0] 10 c0 v0).2.1,
   (cmd_id_zero_distinguishes 3 [v0] 10 c0 v0).2.2.1 rfl⟩

/-- Claim C10: the end-effector action string conversions round-trip on all
four actions; every unrecognised string, and a null C string, falls back to
`Idle`. -/
theorem ee_action_string_roundtrip :
    ∀ (a : EndEffectorAction) (s : String),
      StringToEndEffectorActionSafe (EndEffectorActionToString a) = a ∧
      (s ≠ "Idle" → s ≠ "Open" → s ≠ "Close" → s ≠ "ForceClose" →
        StringToEndEffectorActionSafe s = .Idle) ∧
      StringToEndEffectorActionSafeCStr none = .Idle := by
  intro a s
  refine ⟨?_, ?_, rfl⟩
  · cases a <;> decide
  · intro h1 h2 h3 h4
    simp [StringToEndEffectorActionSafe, h1, h2, h3, h4]

/-- Witness for C10: the round-trip at `Close` and the fallback on the
unrecognised string "banana". -/
theorem ee_action_string_roundtrip_witness :
    StringToEndEffectorActionSafe (EndEffectorActionToString .Close) = .Close ∧
    StringToEndEffectorActionSafe "banana" = .Idle :=
  ⟨(ee_action_string_roundtrip .Close "banana").1,
   (ee_action_string_roundtrip .Close "banana").2.1 (by decide) (by decide)
     (by decide) (by decide)⟩
